import Mathlib

/-
Verification development for the PyFME steady-state trimmer
(src/pyfme/utils/trimmer.py).

The Python module is embedded shallowly over the real numbers.  Python
float operations that can raise are modelled in the Except monad:
math.sqrt raises ValueError on a negative argument, and float division
by zero raises ZeroDivisionError.  Reading the local variable
dynamic_eqs when it was never assigned (the dyn_eqs is not None path of
steady_state_flight_trim) raises UnboundLocalError, a subclass of
NameError.  External collaborators that live outside this module
(scipy.optimize.least_squares, the atmosphere model, the aircraft force
model, the rigid-body dynamic equations and the wind-to-body rotation)
are taken as explicit parameters of the embedding.
-/

namespace Trimmer

/-- Exceptions the embedded Python code can raise. -/
inductive PyErr where
  | valueError
  | zeroDivisionError
  | unboundLocalError
deriving DecidableEq

/-- Runtime warnings issued through warnings.warn by the trimmer. -/
inductive Warning where
  | notConverge
  | notEnoughPower
deriving DecidableEq

/-- Embedding of math.sqrt: raises ValueError on a negative argument. -/
noncomputable def pysqrt (x : ℝ) : Except PyErr ℝ :=
  if x < 0 then .error .valueError else .ok (Real.sqrt x)

/-- Embedding of Python float division: raises ZeroDivisionError when the
denominator is zero. -/
noncomputable def pydiv (num den : ℝ) : Except PyErr ℝ :=
  if den = 0 then .error .zeroDivisionError else .ok (num / den)

/-- Embedding of turn_coord_cons (trimmer.py lines 142-165): bank angle for
a coordinated turn, with the fast path for small gamma and the general
closed form otherwise. -/
noncomputable def turn_coord_cons (turn_rate alpha beta TAS gamma : ℝ) :
    Except PyErr ℝ :=
  let g0 : ℝ := 9.81
  let G := turn_rate * TAS / g0
  if |gamma| < 1e-8 then do
    let t ← pydiv (G * Real.cos beta)
      (Real.cos alpha - G * Real.sin alpha * Real.sin beta)
    return Real.arctan t
  else do
    let a := 1 - G * Real.tan alpha * Real.sin beta
    let b ← pydiv (Real.sin gamma) (Real.cos beta)
    let c := 1 + G ^ 2 * Real.cos beta ^ 2
    let sq ← pysqrt (c * (1 - b ^ 2) + G ^ 2 * Real.sin beta ^ 2)
    let num := (a - b ^ 2) + b * Real.tan alpha * sq
    let den := a ^ 2 - b ^ 2 * (1 + c * Real.tan alpha ^ 2)
    let t1 ← pydiv (G * Real.cos beta) (Real.cos alpha)
    let t2 ← pydiv (t1 * num) den
    return Real.arctan t2

/-- Embedding of rate_of_climb_cons (trimmer.py lines 182-193): pitch angle
for the demanded rate of climb, wind angles and roll angle. -/
noncomputable def rate_of_climb_cons (gamma alpha beta phi : ℝ) :
    Except PyErr ℝ := do
  let a := Real.cos alpha * Real.cos beta
  let b := Real.sin phi * Real.sin beta +
    Real.cos phi * Real.sin alpha * Real.cos beta
  let sq ← pysqrt (a ^ 2 - Real.sin gamma ^ 2 + b ^ 2)
  let t ← pydiv (a * b + Real.sin gamma * sq) (a ^ 2 - Real.sin gamma ^ 2)
  return Real.arctan t

/-- Modelled from the spec: CoordinateTransform.wind_to_body rotates a
wind-axes vector into body axes through beta then alpha (the source module
pyfme.utils.coordinates is not part of the packaged sources). -/
noncomputable def wind2body (v : Fin 3 → ℝ) (alpha beta : ℝ) : Fin 3 → ℝ :=
  ![Real.cos alpha * Real.cos beta * v 0 -
      Real.cos alpha * Real.sin beta * v 1 - Real.sin alpha * v 2,
    Real.sin beta * v 0 + Real.cos beta * v 1,
    Real.sin alpha * Real.cos beta * v 0 -
      Real.sin alpha * Real.sin beta * v 1 + Real.cos alpha * v 2]

/-- Body-axes angular velocity assembled by steady_state_flight_trim
(trimmer.py lines 132-136): p, q, r from turn_rate, theta, phi. -/
noncomputable def trim_ang_vel (turn_rate theta phi : ℝ) : Fin 3 → ℝ :=
  ![-turn_rate * Real.sin theta,
    turn_rate * Real.sin phi * Real.cos theta,
    turn_rate * Real.cos theta * Real.sin phi]

/-- Body-axes angular velocity assembled inside the residual function func
(trimmer.py lines 217-221): p, q, r from turn_rate, theta, phi. -/
noncomputable def func_ang_vel (turn_rate theta phi : ℝ) : Fin 3 → ℝ :=
  ![-turn_rate * Real.sin theta,
    turn_rate * Real.sin phi * Real.cos theta,
    turn_rate * Real.cos theta * Real.sin phi]

/-- Signature of the rigid-body dynamic equations collaborator:
time, 6-component velocity state, mass, inertia, forces, moments to the
6-component state derivative. -/
def DynEqs : Type :=
  ℝ → (Fin 6 → ℝ) → ℝ → (Fin 3 → Fin 3 → ℝ) → (Fin 3 → ℝ) → (Fin 3 → ℝ) →
    Fin 6 → ℝ

/-- Signature of the atmosphere collaborator pyfme.environment.isa.atm:
altitude to the tuple (T, p, rho, a); only rho is read by the trimmer. -/
def Atm : Type := ℝ → ℝ × ℝ × ℝ × ℝ

/-- Duck-typed aircraft object: the two methods the trimmer calls. -/
structure Aircraft where
  get_forces_and_moments :
    ℝ → ℝ → ℝ → ℝ → ℝ → ℝ → ℝ → ℝ → ℝ → (Fin 3 → ℝ) →
      (Fin 3 → ℝ) × (Fin 3 → ℝ)
  mass_and_inertial_data : ℝ × (Fin 3 → Fin 3 → ℝ)

/-- Fields of the scipy.optimize.least_squares result object that the
trimmer reads: x, fun (here fvec, fun is a Lean keyword) and cost. -/
structure OptResult where
  x : Fin 6 → ℝ
  fvec : Fin 6 → ℝ
  cost : ℝ

/-- Signature of the scipy.optimize.least_squares collaborator as the
trimmer invokes it: the residual function closed over its extra args, the
initial guess, and the pair of bound vectors. -/
def LeastSquares : Type :=
  ((Fin 6 → ℝ) → Except PyErr (Fin 6 → ℝ)) → (Fin 6 → ℝ) →
    (Fin 6 → ℝ) × (Fin 6 → ℝ) → OptResult

/-- Embedding of func (trimmer.py lines 196-240), the residual the
optimizer drives to zero: kinematic closure, angular and linear velocity,
atmosphere query, force and mass queries, then the dynamic equations. -/
noncomputable def func (trimmed_params : Fin 6 → ℝ)
    (h TAS gamma turn_rate : ℝ) (aircraft : Aircraft)
    (dynamic_eqs : DynEqs) (atm : Atm) : Except PyErr (Fin 6 → ℝ) := do
  let alpha := trimmed_params 0
  let beta := trimmed_params 1
  let delta_e := trimmed_params 2
  let delta_ail := trimmed_params 3
  let delta_r := trimmed_params 4
  let delta_t := trimmed_params 5
  let phi ← if |turn_rate| < 1e-8 then .ok 0
    else turn_coord_cons turn_rate alpha beta TAS gamma
  let theta ← rate_of_climb_cons gamma alpha beta phi
  let ang_vel := func_ang_vel turn_rate theta phi
  let lin_vel := wind2body ![TAS, 0, 0] alpha beta
  let attitude : Fin 3 → ℝ := ![theta, phi, 0]
  let rho := (atm h).2.2.1
  let fm := aircraft.get_forces_and_moments TAS rho alpha beta delta_e 0
    delta_ail delta_r delta_t attitude
  let mass := aircraft.mass_and_inertial_data.1
  let inertia := aircraft.mass_and_inertial_data.2
  let vel : Fin 6 → ℝ :=
    ![lin_vel 0, lin_vel 1, lin_vel 2, ang_vel 0, ang_vel 1, ang_vel 2]
  return dynamic_eqs 0 vel mass inertia fm.1 fm.2

/-- Result tuple of steady_state_flight_trim (trimmer.py line 139). -/
structure TrimOutput where
  lin_vel : Fin 3 → ℝ
  ang_vel : Fin 3 → ℝ
  theta : ℝ
  phi : ℝ
  alpha : ℝ
  beta : ℝ
  control : Fin 4 → ℝ

/-- Embedding of steady_state_flight_trim (trimmer.py lines 25-139).
The collaborators least_squares and atm (module-level imports in the
source) and default_dyn_eqs (the function imported from
pyfme.models.euler_flat_earth on the dyn_eqs-is-None branch, a module not
part of the packaged sources) are explicit parameters.  When dyn_eqs is
not None, the local dynamic_eqs is never assigned, so building the args
tuple at line 93 raises UnboundLocalError.  The warn calls at lines
107-109 are modelled as the returned Warning list. -/
noncomputable def steady_state_flight_trim (least_squares : LeastSquares)
    (atm : Atm) (default_dyn_eqs : DynEqs) (aircraft : Aircraft)
    (h TAS gamma turn_rate : ℝ) (dyn_eqs : Option DynEqs) :
    Except PyErr (TrimOutput × List Warning) :=
  match dyn_eqs with
  | some _ => .error .unboundLocalError
  | none =>
    let dynamic_eqs := default_dyn_eqs
    let alpha_0 := 0.05 * Real.sign gamma
    let betha_0 := 0.001 * Real.sign turn_rate
    let delta_e_0 : ℝ := 0.05
    let delta_ail_0 := 0.01 * Real.sign turn_rate
    let delta_r_0 := 0.01 * Real.sign turn_rate
    let delta_t_0 : ℝ := 0.5
    let initial_guess : Fin 6 → ℝ :=
      ![alpha_0, betha_0, delta_e_0, delta_ail_0, delta_r_0, delta_t_0]
    let lower_bounds : Fin 6 → ℝ := ![-1, -0.5, -1, -1, -1, 0]
    let upper_bounds : Fin 6 → ℝ := ![1, 0.5, 1, 1, 1, 1]
    let results := least_squares
      (fun x => func x h TAS gamma turn_rate aircraft dynamic_eqs atm)
      initial_guess (lower_bounds, upper_bounds)
    let trimmed_params := results.x
    let fvec := results.fvec
    let cost := results.cost
    let warnings : List Warning :=
      if cost > 1e-7 ∨ ∃ i, |fvec i| > 1e-3 then
        if trimmed_params 5 > 0.99 then [.notConverge, .notEnoughPower]
        else [.notConverge]
      else []
    let alpha := trimmed_params 0
    let beta := trimmed_params 1
    let control : Fin 4 → ℝ :=
      ![trimmed_params 2, trimmed_params 3, trimmed_params 4,
        trimmed_params 5]
    do
      let phi ← if |turn_rate| < 1e-8 then .ok 0
        else turn_coord_cons turn_rate alpha beta TAS gamma
      let theta ← rate_of_climb_cons gamma alpha beta phi
      let ang_vel := trim_ang_vel turn_rate theta phi
      let lin_vel := wind2body ![TAS, 0, 0] alpha beta
      return (⟨lin_vel, ang_vel, theta, phi, alpha, beta, control⟩,
        warnings)

/-- Atmosphere stub used to instantiate theorems on concrete runs. -/
noncomputable def atm0 : Atm := fun _ => (0, 0, 0, 0)

/-- Aircraft stub used to instantiate theorems on concrete runs. -/
noncomputable def aircraft0 : Aircraft :=
  ⟨fun _ _ _ _ _ _ _ _ _ _ => (fun _ => 0, fun _ => 0), (0, fun _ _ => 0)⟩

/-- Dynamic-equations stub used to instantiate theorems on concrete runs. -/
noncomputable def dyn0 : DynEqs := fun _ _ _ _ _ _ _ => 0

/-- Optimizer stub returning a fixed result whatever the residual, the
guess and the bounds are. -/
noncomputable def constLS (X fv : Fin 6 → ℝ) (c : ℝ) : LeastSquares :=
  fun _ _ _ => ⟨X, fv, c⟩

/-- Bind on Except reduces on an ok value. -/
theorem ok_bind {α β : Type} (a : α) (f : α → Except PyErr β) :
    (Except.ok a >>= f) = f a := rfl

/-- Bind on Except propagates an error. -/
theorem error_bind {α β : Type} (e : PyErr) (f : α → Except PyErr β) :
    ((Except.error e : Except PyErr α) >>= f) = .error e := rfl

/-- Unfolding of the dyn_eqs-is-None branch of steady_state_flight_trim
as a plain Except program over the optimizer result. -/
theorem trim_none_unfold (ls : LeastSquares) (atmf : Atm) (deq : DynEqs)
    (air : Aircraft) (h TAS gamma turn_rate : ℝ) :
    steady_state_flight_trim ls atmf deq air h TAS gamma turn_rate none =
      (do
        let R := ls
          (fun x => func x h TAS gamma turn_rate air deq atmf)
          ![0.05 * Real.sign gamma, 0.001 * Real.sign turn_rate, 0.05,
            0.01 * Real.sign turn_rate, 0.01 * Real.sign turn_rate, 0.5]
          (![-1, -0.5, -1, -1, -1, 0], ![1, 0.5, 1, 1, 1, 1])
        let phi ← if |turn_rate| < 1e-8 then .ok 0
          else turn_coord_cons turn_rate (R.x 0) (R.x 1) TAS gamma
        let theta ← rate_of_climb_cons gamma (R.x 0) (R.x 1) phi
        return (⟨wind2body ![TAS, 0, 0] (R.x 0) (R.x 1),
            trim_ang_vel turn_rate theta phi, theta, phi, R.x 0, R.x 1,
            ![R.x 2, R.x 3, R.x 4, R.x 5]⟩,
          if R.cost > 1e-7 ∨ ∃ i, |R.fvec i| > 1e-3 then
            if R.x 5 > 0.99 then [.notConverge, .notEnoughPower]
            else [.notConverge]
          else [])) := rfl

/-- Evaluation of rate_of_climb_cons at level flight with zero wind
angles and wings level. -/
theorem rate_of_climb_cons_zero : rate_of_climb_cons 0 0 0 0 = .ok 0 := by
  unfold rate_of_climb_cons pysqrt pydiv
  norm_num [ok_bind, Real.sqrt_one, Real.arctan_zero]

/-- Evaluation of the trimmer on the constant-optimizer stub for level
non-turning flight when the stub returns zero wind angles. -/
theorem trim_constLS_eval (X fv : Fin 6 → ℝ) (c h TAS : ℝ)
    (hX0 : X 0 = 0) (hX1 : X 1 = 0) :
    steady_state_flight_trim (constLS X fv c) atm0 dyn0 aircraft0
        h TAS 0 0 none =
      .ok (⟨wind2body ![TAS, 0, 0] 0 0, trim_ang_vel 0 0 0, 0, 0, 0, 0,
          ![X 2, X 3, X 4, X 5]⟩,
        if c > 1e-7 ∨ ∃ i, |fv i| > 1e-3 then
          if X 5 > 0.99 then [.notConverge, .notEnoughPower]
          else [.notConverge]
        else []) := by
  rw [trim_none_unfold]
  simp only [constLS]
  rw [if_pos (show |(0:ℝ)| < 1e-8 by norm_num)]
  simp only [ok_bind]
  rw [hX0, hX1, rate_of_climb_cons_zero]
  simp only [ok_bind]
  rfl

/-- Success path of rate_of_climb_cons: when the square-root argument is
not negative and the denominator is nonzero, the computed pitch angle is
the closed form of the source. -/
theorem rate_of_climb_cons_ok (gamma alpha beta phi : ℝ)
    (h1 : ¬ (Real.cos alpha * Real.cos beta) ^ 2 - Real.sin gamma ^ 2 +
      (Real.sin phi * Real.sin beta +
        Real.cos phi * Real.sin alpha * Real.cos beta) ^ 2 < 0)
    (h2 : (Real.cos alpha * Real.cos beta) ^ 2 - Real.sin gamma ^ 2 ≠ 0) :
    rate_of_climb_cons gamma alpha beta phi =
      .ok (Real.arctan ((Real.cos alpha * Real.cos beta *
          (Real.sin phi * Real.sin beta +
            Real.cos phi * Real.sin alpha * Real.cos beta) +
          Real.sin gamma *
          Real.sqrt ((Real.cos alpha * Real.cos beta) ^ 2 -
            Real.sin gamma ^ 2 +
            (Real.sin phi * Real.sin beta +
              Real.cos phi * Real.sin alpha * Real.cos beta) ^ 2)) /
        ((Real.cos alpha * Real.cos beta) ^ 2 - Real.sin gamma ^ 2))) := by
  simp only [rate_of_climb_cons, pysqrt, pydiv]
  rw [if_neg h1]
  simp only [ok_bind]
  rw [if_neg h2]
  simp only [ok_bind]
  rfl

/-- Success of rate_of_climb_cons in level flight whenever the wind
angles keep cosines away from zero. -/
theorem rate_of_climb_cons_level_ok (alpha beta phi : ℝ)
    (hd : Real.cos alpha * Real.cos beta ≠ 0) :
    ∃ theta, rate_of_climb_cons 0 alpha beta phi = .ok theta := by
  refine ⟨_, rate_of_climb_cons_ok 0 alpha beta phi ?_ ?_⟩
  · rw [Real.sin_zero]
    push_neg
    nlinarith [sq_nonneg (Real.cos alpha * Real.cos beta),
      sq_nonneg (Real.sin phi * Real.sin beta +
        Real.cos phi * Real.sin alpha * Real.cos beta)]
  · rw [Real.sin_zero]
    simpa using pow_ne_zero 2 hd

/-- Success path of the general-gamma branch of turn_coord_cons: when no
division or square root fails, the computed bank angle is the closed form
of the source. -/
theorem turn_coord_cons_general_ok (turn_rate alpha beta TAS gamma : ℝ)
    (hg : ¬ |gamma| < 1e-8) (hb : Real.cos beta ≠ 0)
    (hsq : ¬ (1 + (turn_rate * TAS / 9.81) ^ 2 * Real.cos beta ^ 2) *
      (1 - (Real.sin gamma / Real.cos beta) ^ 2) +
      (turn_rate * TAS / 9.81) ^ 2 * Real.sin beta ^ 2 < 0)
    (ha : Real.cos alpha ≠ 0)
    (hden : (1 - turn_rate * TAS / 9.81 * Real.tan alpha * Real.sin beta) ^ 2 -
      (Real.sin gamma / Real.cos beta) ^ 2 *
      (1 + (1 + (turn_rate * TAS / 9.81) ^ 2 * Real.cos beta ^ 2) *
        Real.tan alpha ^ 2) ≠ 0) :
    turn_coord_cons turn_rate alpha beta TAS gamma =
      .ok (Real.arctan (turn_rate * TAS / 9.81 * Real.cos beta /
          Real.cos alpha *
          ((1 - turn_rate * TAS / 9.81 * Real.tan alpha * Real.sin beta -
              (Real.sin gamma / Real.cos beta) ^ 2) +
            Real.sin gamma / Real.cos beta * Real.tan alpha *
            Real.sqrt ((1 + (turn_rate * TAS / 9.81) ^ 2 *
                Real.cos beta ^ 2) *
              (1 - (Real.sin gamma / Real.cos beta) ^ 2) +
              (turn_rate * TAS / 9.81) ^ 2 * Real.sin beta ^ 2)) /
          ((1 - turn_rate * TAS / 9.81 * Real.tan alpha * Real.sin beta) ^ 2 -
            (Real.sin gamma / Real.cos beta) ^ 2 *
            (1 + (1 + (turn_rate * TAS / 9.81) ^ 2 * Real.cos beta ^ 2) *
              Real.tan alpha ^ 2)))) := by
  simp only [turn_coord_cons, pysqrt, pydiv]
  rw [if_neg hg, if_neg hb]
  simp only [ok_bind]
  rw [if_neg hsq]
  simp only [ok_bind]
  rw [if_neg ha]
  simp only [ok_bind]
  rw [if_neg hden]
  simp only [ok_bind]
  ring_nf
  rfl

/-- Written from the words of the spec, section 4.2, for comparison with
the source: on the general-gamma branch, with G = turn_rate TAS / g0,
a = 1 - G tan(alpha) sin(beta), b = sin(gamma)/cos(beta),
c = 1 + G^2 cos^2(beta), sq = sqrt(c (1 - b^2) + G^2 sin^2(beta)),
num = (a - b^2) + b tan(alpha) sq,
den = a^2 - b^2 (1 + c tan^2(alpha)), the bank angle is
atan(G cos(beta)/cos(alpha) times num/den). -/
noncomputable def turn_coord_general_spec
    (turn_rate alpha beta TAS gamma : ℝ) : ℝ :=
  let G := turn_rate * TAS / 9.81
  let a := 1 - G * Real.tan alpha * Real.sin beta
  let b := Real.sin gamma / Real.cos beta
  let c := 1 + G ^ 2 * Real.cos beta ^ 2
  let sq := Real.sqrt (c * (1 - b ^ 2) + G ^ 2 * Real.sin beta ^ 2)
  let num := (a - b ^ 2) + b * Real.tan alpha * sq
  let den := a ^ 2 - b ^ 2 * (1 + c * Real.tan alpha ^ 2)
  Real.arctan (G * Real.cos beta / Real.cos alpha * num / den)

/-- Failure of the fast path of turn_coord_cons on a zero denominator. -/
theorem turn_coord_cons_fast_div_zero (turn_rate alpha beta TAS gamma : ℝ)
    (hg : |gamma| < 1e-8)
    (hd : Real.cos alpha -
      turn_rate * TAS / 9.81 * Real.sin alpha * Real.sin beta = 0) :
    turn_coord_cons turn_rate alpha beta TAS gamma =
      .error .zeroDivisionError := by
  simp only [turn_coord_cons, pydiv]
  rw [if_pos hg, if_pos hd]
  rfl

/-- Failure of the general branch of turn_coord_cons when cos(beta) is
zero: the division defining b raises. -/
theorem turn_coord_cons_b_div_zero (turn_rate alpha beta TAS gamma : ℝ)
    (hg : ¬ |gamma| < 1e-8) (hb : Real.cos beta = 0) :
    turn_coord_cons turn_rate alpha beta TAS gamma =
      .error .zeroDivisionError := by
  simp only [turn_coord_cons, pydiv]
  rw [if_neg hg, if_pos hb]
  rfl

/-- Failure of the general branch of turn_coord_cons on a negative
square-root argument: math.sqrt raises ValueError. -/
theorem turn_coord_cons_sqrt_neg (turn_rate alpha beta TAS gamma : ℝ)
    (hg : ¬ |gamma| < 1e-8) (hb : Real.cos beta ≠ 0)
    (hsq : (1 + (turn_rate * TAS / 9.81) ^ 2 * Real.cos beta ^ 2) *
      (1 - (Real.sin gamma / Real.cos beta) ^ 2) +
      (turn_rate * TAS / 9.81) ^ 2 * Real.sin beta ^ 2 < 0) :
    turn_coord_cons turn_rate alpha beta TAS gamma = .error .valueError := by
  simp only [turn_coord_cons, pysqrt, pydiv]
  rw [if_neg hg, if_neg hb]
  simp only [ok_bind]
  rw [if_pos hsq]
  rfl

/-- Failure of the general branch of turn_coord_cons when cos(alpha) is
zero: the division by cos(alpha) raises. -/
theorem turn_coord_cons_cos_alpha_zero (turn_rate alpha beta TAS gamma : ℝ)
    (hg : ¬ |gamma| < 1e-8) (hb : Real.cos beta ≠ 0)
    (hsq : ¬ (1 + (turn_rate * TAS / 9.81) ^ 2 * Real.cos beta ^ 2) *
      (1 - (Real.sin gamma / Real.cos beta) ^ 2) +
      (turn_rate * TAS / 9.81) ^ 2 * Real.sin beta ^ 2 < 0)
    (ha : Real.cos alpha = 0) :
    turn_coord_cons turn_rate alpha beta TAS gamma =
      .error .zeroDivisionError := by
  simp only [turn_coord_cons, pysqrt, pydiv]
  rw [if_neg hg, if_neg hb]
  simp only [ok_bind]
  rw [if_neg hsq]
  simp only [ok_bind]
  rw [if_pos ha]
  rfl

/-- Failure of the general branch of turn_coord_cons on a zero final
denominator den. -/
theorem turn_coord_cons_den_zero (turn_rate alpha beta TAS gamma : ℝ)
    (hg : ¬ |gamma| < 1e-8) (hb : Real.cos beta ≠ 0)
    (hsq : ¬ (1 + (turn_rate * TAS / 9.81) ^ 2 * Real.cos beta ^ 2) *
      (1 - (Real.sin gamma / Real.cos beta) ^ 2) +
      (turn_rate * TAS / 9.81) ^ 2 * Real.sin beta ^ 2 < 0)
    (ha : Real.cos alpha ≠ 0)
    (hden : (1 - turn_rate * TAS / 9.81 * Real.tan alpha * Real.sin beta) ^ 2 -
      (Real.sin gamma / Real.cos beta) ^ 2 *
      (1 + (1 + (turn_rate * TAS / 9.81) ^ 2 * Real.cos beta ^ 2) *
        Real.tan alpha ^ 2) = 0) :
    turn_coord_cons turn_rate alpha beta TAS gamma =
      .error .zeroDivisionError := by
  simp only [turn_coord_cons, pysqrt, pydiv]
  rw [if_neg hg, if_neg hb]
  simp only [ok_bind]
  rw [if_neg hsq]
  simp only [ok_bind]
  rw [if_neg ha]
  simp only [ok_bind]
  rw [if_pos hden]
  rfl

/-- Failure of rate_of_climb_cons on a negative square-root argument:
math.sqrt raises ValueError. -/
theorem rate_of_climb_cons_sqrt_neg (gamma alpha beta phi : ℝ)
    (hsq : (Real.cos alpha * Real.cos beta) ^ 2 - Real.sin gamma ^ 2 +
      (Real.sin phi * Real.sin beta +
        Real.cos phi * Real.sin alpha * Real.cos beta) ^ 2 < 0) :
    rate_of_climb_cons gamma alpha beta phi = .error .valueError := by
  simp only [rate_of_climb_cons, pysqrt, pydiv]
  rw [if_pos hsq]
  rfl

/-- Failure of rate_of_climb_cons on a zero denominator, the case
a^2 = sin^2(gamma). -/
theorem rate_of_climb_cons_den_zero (gamma alpha beta phi : ℝ)
    (hsq : ¬ (Real.cos alpha * Real.cos beta) ^ 2 - Real.sin gamma ^ 2 +
      (Real.sin phi * Real.sin beta +
        Real.cos phi * Real.sin alpha * Real.cos beta) ^ 2 < 0)
    (hden : (Real.cos alpha * Real.cos beta) ^ 2 - Real.sin gamma ^ 2 = 0) :
    rate_of_climb_cons gamma alpha beta phi =
      .error .zeroDivisionError := by
  simp only [rate_of_climb_cons, pysqrt, pydiv]
  rw [if_neg hsq]
  simp only [ok_bind]
  rw [if_pos hden]
  rfl

/-- Evaluation of the fast path of turn_coord_cons at zero turn rate and
zero wind angles. -/
theorem turn_coord_cons_fast_zero_eval (TAS : ℝ) :
    turn_coord_cons 0 0 0 TAS 0 = .ok 0 := by
  simp only [turn_coord_cons, pydiv]
  rw [if_pos (show |(0:ℝ)| < 1e-8 by norm_num)]
  norm_num [ok_bind, Real.arctan_zero]

/-- Pure on Except builds an ok value. -/
theorem pure_eq_ok {α : Type} (a : α) :
    (pure a : Except PyErr α) = .ok a := rfl

/-- Ok is injective. -/
theorem ok_inj {α : Type} {a b : α}
    (h : (Except.ok a : Except PyErr α) = .ok b) : a = b := by
  cases h; rfl

/-- An error never equals an ok value. -/
theorem error_ne_ok {α : Type} (e : PyErr) (a : α) :
    (Except.error e : Except PyErr α) ≠ .ok a := fun h =>
  Except.noConfusion h

/-- C3, corrected: on every input that sends a square-root argument
negative or a denominator to zero, each closure function aborts the
evaluation by raising a bare built-in exception, ValueError for the
square root and ZeroDivisionError for the division; no numeric value is
returned to the optimizer, but the exception carries no identification
of the offending formula or inputs.  The seven conjuncts cover every
square root and every division of turn_coord_cons and
rate_of_climb_cons. -/
theorem C3_amended_domain_errors :
    (∀ turn_rate alpha beta TAS gamma : ℝ, |gamma| < 1e-8 →
      Real.cos alpha -
        turn_rate * TAS / 9.81 * Real.sin alpha * Real.sin beta = 0 →
      turn_coord_cons turn_rate alpha beta TAS gamma =
        .error .zeroDivisionError) ∧
    (∀ turn_rate alpha beta TAS gamma : ℝ, ¬ |gamma| < 1e-8 →
      Real.cos beta = 0 →
      turn_coord_cons turn_rate alpha beta TAS gamma =
        .error .zeroDivisionError) ∧
    (∀ turn_rate alpha beta TAS gamma : ℝ, ¬ |gamma| < 1e-8 →
      Real.cos beta ≠ 0 →
      (1 + (turn_rate * TAS / 9.81) ^ 2 * Real.cos beta ^ 2) *
        (1 - (Real.sin gamma / Real.cos beta) ^ 2) +
        (turn_rate * TAS / 9.81) ^ 2 * Real.sin beta ^ 2 < 0 →
      turn_coord_cons turn_rate alpha beta TAS gamma =
        .error .valueError) ∧
    (∀ turn_rate alpha beta TAS gamma : ℝ, ¬ |gamma| < 1e-8 →
      Real.cos beta ≠ 0 →
      ¬ (1 + (turn_rate * TAS / 9.81) ^ 2 * Real.cos beta ^ 2) *
        (1 - (Real.sin gamma / Real.cos beta) ^ 2) +
        (turn_rate * TAS / 9.81) ^ 2 * Real.sin beta ^ 2 < 0 →
      Real.cos alpha = 0 →
      turn_coord_cons turn_rate alpha beta TAS gamma =
        .error .zeroDivisionError) ∧
    (∀ turn_rate alpha beta TAS gamma : ℝ, ¬ |gamma| < 1e-8 →
      Real.cos beta ≠ 0 →
      ¬ (1 + (turn_rate * TAS / 9.81) ^ 2 * Real.cos beta ^ 2) *
        (1 - (Real.sin gamma / Real.cos beta) ^ 2) +
        (turn_rate * TAS / 9.81) ^ 2 * Real.sin beta ^ 2 < 0 →
      Real.cos alpha ≠ 0 →
      (1 - turn_rate * TAS / 9.81 * Real.tan alpha * Real.sin beta) ^ 2 -
        (Real.sin gamma / Real.cos beta) ^ 2 *
        (1 + (1 + (turn_rate * TAS / 9.81) ^ 2 * Real.cos beta ^ 2) *
          Real.tan alpha ^ 2) = 0 →
      turn_coord_cons turn_rate alpha beta TAS gamma =
        .error .zeroDivisionError) ∧
    (∀ gamma alpha beta phi : ℝ,
      (Real.cos alpha * Real.cos beta) ^ 2 - Real.sin gamma ^ 2 +
        (Real.sin phi * Real.sin beta +
          Real.cos phi * Real.sin alpha * Real.cos beta) ^ 2 < 0 →
      rate_of_climb_cons gamma alpha beta phi = .error .valueError) ∧
    (∀ gamma alpha beta phi : ℝ,
      ¬ (Real.cos alpha * Real.cos beta) ^ 2 - Real.sin gamma ^ 2 +
        (Real.sin phi * Real.sin beta +
          Real.cos phi * Real.sin alpha * Real.cos beta) ^ 2 < 0 →
      (Real.cos alpha * Real.cos beta) ^ 2 - Real.sin gamma ^ 2 = 0 →
      rate_of_climb_cons gamma alpha beta phi =
        .error .zeroDivisionError) :=
  ⟨turn_coord_cons_fast_div_zero, turn_coord_cons_b_div_zero,
   turn_coord_cons_sqrt_neg, turn_coord_cons_cos_alpha_zero,
   turn_coord_cons_den_zero, rate_of_climb_cons_sqrt_neg,
   rate_of_climb_cons_den_zero⟩

/-- C3, counterexample to the claim as stated: a negative square-root
argument in turn_coord_cons and a negative square-root argument in
rate_of_climb_cons, at different inputs and in different formulas, both
abort with the one identical bare ValueError; the raised diagnostic
therefore identifies neither the offending formula nor the offending
inputs, contrary to the claim. -/
theorem C3_counterexample :
    turn_coord_cons 0 0 (Real.pi / 3) 100 (Real.pi / 2) =
      .error .valueError ∧
    rate_of_climb_cons (Real.pi / 2) (Real.pi / 3) (Real.pi / 3) 0 =
      .error .valueError := by
  constructor
  · apply turn_coord_cons_sqrt_neg
    · rw [abs_of_pos Real.pi_div_two_pos]
      push_neg
      nlinarith [Real.pi_gt_three]
    · rw [Real.cos_pi_div_three]; norm_num
    · rw [Real.sin_pi_div_two, Real.cos_pi_div_three]
      norm_num
  · apply rate_of_climb_cons_sqrt_neg
    rw [Real.cos_pi_div_three, Real.sin_pi_div_two, Real.sin_zero,
      Real.cos_zero, Real.sin_pi_div_three]
    have h3 : Real.sqrt 3 ^ 2 = 3 := Real.sq_sqrt (by norm_num)
    ring_nf
    nlinarith [h3]

/-- C3 witness for the amended theorem: the negative-square-root conjunct
of turn_coord_cons applied at a concrete input with all hypotheses
discharged. -/
theorem C3_amended_witness :
    turn_coord_cons 0 (Real.pi / 4) (Real.pi / 3) 100 (Real.pi / 2) =
      .error .valueError := by
  apply C3_amended_domain_errors.2.2.1
  · rw [abs_of_pos Real.pi_div_two_pos]
    push_neg
    nlinarith [Real.pi_gt_three]
  · rw [Real.cos_pi_div_three]; norm_num
  · rw [Real.sin_pi_div_two, Real.cos_pi_div_three]
    norm_num

/-- C5, counterexample to the claim as stated: at turn_rate = 0 with
gamma = pi/2 and beta = pi/3, the general-gamma branch sends the
square-root argument negative, so the call raises ValueError instead of
returning phi = 0; the claim fails for these alpha, beta, gamma, TAS. -/
theorem C5_counterexample :
    turn_coord_cons 0 0 (Real.pi / 3) 1 (Real.pi / 2) ≠ .ok 0 ∧
    turn_coord_cons 0 0 (Real.pi / 3) 1 (Real.pi / 2) =
      .error .valueError := by
  have h : turn_coord_cons 0 0 (Real.pi / 3) 1 (Real.pi / 2) =
      .error .valueError := by
    apply turn_coord_cons_sqrt_neg
    · rw [abs_of_pos Real.pi_div_two_pos]
      push_neg
      nlinarith [Real.pi_gt_three]
    · rw [Real.cos_pi_div_three]; norm_num
    · rw [Real.sin_pi_div_two, Real.cos_pi_div_three]
      norm_num
  exact ⟨fun hc => error_ne_ok _ _ (h ▸ hc), h⟩

/-- C5, amended: whenever turn_rate = 0 and turn_coord_cons returns a
value at all, that value is exactly phi = 0, on the fast path and on the
general-gamma branch alike. -/
theorem C5_amended_zero_turn_rate (alpha beta TAS gamma phi : ℝ)
    (hok : turn_coord_cons 0 alpha beta TAS gamma = .ok phi) : phi = 0 := by
  simp only [turn_coord_cons, pysqrt, pydiv] at hok
  by_cases hg : |gamma| < 1e-8
  · rw [if_pos hg] at hok
    by_cases ha : Real.cos alpha -
        0 * TAS / 9.81 * Real.sin alpha * Real.sin beta = 0
    · rw [if_pos ha] at hok
      simp only [error_bind] at hok
      exact absurd hok (error_ne_ok _ _)
    · rw [if_neg ha] at hok
      simp only [ok_bind] at hok
      rw [show (0:ℝ) * TAS / 9.81 * Real.cos beta = 0 from by ring,
        zero_div, Real.arctan_zero] at hok
      exact (ok_inj (pure_eq_ok (0:ℝ) ▸ hok)).symm
  · rw [if_neg hg] at hok
    by_cases hb : Real.cos beta = 0
    · rw [if_pos hb] at hok
      simp only [error_bind] at hok
      exact absurd hok (error_ne_ok _ _)
    · rw [if_neg hb] at hok
      simp only [ok_bind] at hok
      by_cases hsq : (1 + (0 * TAS / 9.81) ^ 2 * Real.cos beta ^ 2) *
          (1 - (Real.sin gamma / Real.cos beta) ^ 2) +
          (0 * TAS / 9.81) ^ 2 * Real.sin beta ^ 2 < 0
      · rw [if_pos hsq] at hok
        simp only [error_bind] at hok
        exact absurd hok (error_ne_ok _ _)
      · rw [if_neg hsq] at hok
        simp only [ok_bind] at hok
        by_cases ha : Real.cos alpha = 0
        · rw [if_pos ha] at hok
          simp only [error_bind] at hok
          exact absurd hok (error_ne_ok _ _)
        · rw [if_neg ha] at hok
          simp only [ok_bind] at hok
          by_cases hden : (1 - 0 * TAS / 9.81 * Real.tan alpha *
              Real.sin beta) ^ 2 -
              (Real.sin gamma / Real.cos beta) ^ 2 *
              (1 + (1 + (0 * TAS / 9.81) ^ 2 * Real.cos beta ^ 2) *
                Real.tan alpha ^ 2) = 0
          · rw [if_pos hden] at hok
            simp only [error_bind] at hok
            exact absurd hok (error_ne_ok _ _)
          · rw [if_neg hden] at hok
            simp only [ok_bind] at hok
            rw [show ∀ x y : ℝ, 0 * TAS / 9.81 * Real.cos beta /
                Real.cos alpha * x / y = 0 from fun x y => by ring,
              Real.arctan_zero] at hok
            exact (ok_inj (pure_eq_ok (0:ℝ) ▸ hok)).symm

/-- C5 witness for the amended theorem, applied at a concrete fast-path
input on which the function returns. -/
theorem C5_amended_witness :
    turn_coord_cons 0 0 0 100 0 = .ok 0 ∧ (0:ℝ) = 0 :=
  ⟨turn_coord_cons_fast_zero_eval 100,
   C5_amended_zero_turn_rate 0 0 100 0 0
     (turn_coord_cons_fast_zero_eval 100)⟩

/-- C6, confirmed: on the general-gamma branch, whenever every division
and the square root are in domain, turn_coord_cons returns exactly the
closed form transcribed in the spec, here restated verbatim as
turn_coord_general_spec. -/
theorem C6_general_branch_formula (turn_rate alpha beta TAS gamma : ℝ)
    (hg : ¬ |gamma| < 1e-8) (hb : Real.cos beta ≠ 0)
    (hsq : ¬ (1 + (turn_rate * TAS / 9.81) ^ 2 * Real.cos beta ^ 2) *
      (1 - (Real.sin gamma / Real.cos beta) ^ 2) +
      (turn_rate * TAS / 9.81) ^ 2 * Real.sin beta ^ 2 < 0)
    (ha : Real.cos alpha ≠ 0)
    (hden : (1 - turn_rate * TAS / 9.81 * Real.tan alpha * Real.sin beta) ^ 2 -
      (Real.sin gamma / Real.cos beta) ^ 2 *
      (1 + (1 + (turn_rate * TAS / 9.81) ^ 2 * Real.cos beta ^ 2) *
        Real.tan alpha ^ 2) ≠ 0) :
    turn_coord_cons turn_rate alpha beta TAS gamma =
      .ok (turn_coord_general_spec turn_rate alpha beta TAS gamma) := by
  rw [turn_coord_cons_general_ok turn_rate alpha beta TAS gamma
    hg hb hsq ha hden]
  rfl

/-- C6 witness: the general branch evaluated at turn_rate = 9.81,
alpha = beta = 0, TAS = 1, gamma = pi/3, where every hypothesis holds. -/
theorem C6_general_branch_witness :
    turn_coord_cons 9.81 0 0 1 (Real.pi / 3) =
      .ok (turn_coord_general_spec 9.81 0 0 1 (Real.pi / 3)) := by
  apply C6_general_branch_formula
  · rw [abs_of_pos (by positivity : (0:ℝ) < Real.pi / 3)]
    push_neg
    nlinarith [Real.pi_gt_three]
  · rw [Real.cos_zero]; norm_num
  · rw [Real.cos_zero, Real.sin_zero, Real.sin_pi_div_three]
    norm_num [div_pow, Real.sq_sqrt]
  · rw [Real.cos_zero]; norm_num
  · rw [Real.tan_zero, Real.cos_zero, Real.sin_zero,
      Real.sin_pi_div_three]
    norm_num [div_pow, Real.sq_sqrt]

/-- C8, confirmed: turn_coord_cons and rate_of_climb_cons are
deterministic and side-effect-free.  Both are embedded as plain
functions from their argument values to a returned value, with no state
passed in or out, so two calls with identical argument values denote the
one identical output; this is the referential transparency the spec
demands. -/
theorem C8_pure_deterministic
    (tr alpha beta TAS gamma phi tr2 alpha2 beta2 TAS2 gamma2 phi2 : ℝ)
    (h1 : tr = tr2) (h2 : alpha = alpha2) (h3 : beta = beta2)
    (h4 : TAS = TAS2) (h5 : gamma = gamma2) (h6 : phi = phi2) :
    turn_coord_cons tr alpha beta TAS gamma =
      turn_coord_cons tr2 alpha2 beta2 TAS2 gamma2 ∧
    rate_of_climb_cons gamma alpha beta phi =
      rate_of_climb_cons gamma2 alpha2 beta2 phi2 := by
  subst h1 h2 h3 h4 h5 h6
  exact ⟨rfl, rfl⟩

/-- C8 witness: two repeated calls at one concrete argument tuple. -/
theorem C8_pure_deterministic_witness :
    turn_coord_cons 0 0 0 100 0 = turn_coord_cons 0 0 0 100 0 ∧
    rate_of_climb_cons 0 0 0 0 = rate_of_climb_cons 0 0 0 0 :=
  C8_pure_deterministic 0 0 0 100 0 0 0 0 0 100 0 0
    rfl rfl rfl rfl rfl rfl

/-- C9, confirmed: whenever dyn_eqs is supplied with a non-None value,
steady_state_flight_trim fails with UnboundLocalError, the NameError
subclass raised on reading the never-assigned local dynamic_eqs, because
that local is only bound on the dyn_eqs-is-None branch.  The statement
holds for every least_squares implementation, so the optimizer, and with
it the residual function, is never invoked; the solver is usable only
through its implicit default dynamics. -/
theorem C9_explicit_dyn_eqs_fails (ls : LeastSquares) (atmf : Atm)
    (deq : DynEqs) (air : Aircraft) (h TAS gamma turn_rate : ℝ)
    (d : DynEqs) :
    steady_state_flight_trim ls atmf deq air h TAS gamma turn_rate
      (some d) = .error .unboundLocalError := rfl

/-- C10, confirmed: in the angular-velocity decomposition, as written
both in the final assembly of steady_state_flight_trim (trim_ang_vel)
and in the residual function func (func_ang_vel), the pitch-rate
component q = turn_rate sin(phi) cos(theta) and the yaw-rate component
r = turn_rate cos(theta) sin(phi) are the same product, so q = r holds
for every input of either decomposition. -/
theorem C10_ang_vel_q_eq_r (turn_rate theta phi : ℝ) :
    trim_ang_vel turn_rate theta phi 1 = trim_ang_vel turn_rate theta phi 2 ∧
    func_ang_vel turn_rate theta phi 1 =
      func_ang_vel turn_rate theta phi 2 := by
  constructor <;>
  · show turn_rate * Real.sin phi * Real.cos theta =
      turn_rate * Real.cos theta * Real.sin phi
    ring

/-- C1, counterexample to the claim as stated: at TAS = -1, which is not
positive, the call is not rejected before the optimizer runs: it returns
an ok result, and the returned elevator command is whatever the supplied
least_squares stub produced (0 for one stub, one half for another), so
least_squares is invoked and its output is assembled into the result. -/
theorem C1_counterexample :
    (steady_state_flight_trim (constLS (fun _ => 0) (fun _ => 0) 0) atm0
        dyn0 aircraft0 0 (-1) 0 0 none).map (fun p => p.1.control 0)
      = .ok 0 ∧
    (steady_state_flight_trim (constLS ![0, 0, 1/2, 0, 0, 0] (fun _ => 0) 0)
        atm0 dyn0 aircraft0 0 (-1) 0 0 none).map (fun p => p.1.control 0)
      = .ok (1/2) := by
  constructor
  · rw [trim_constLS_eval (fun _ => 0) (fun _ => 0) 0 0 (-1) rfl rfl]
    rfl
  · rw [trim_constLS_eval ![0, 0, 1/2, 0, 0, 0] (fun _ => 0) 0 0 (-1)
      rfl rfl]
    rfl

/-- C1, amended: steady_state_flight_trim performs no validation of TAS
at all; for any TAS, including TAS less than or equal to zero, the call
proceeds into least_squares exactly as for a positive TAS, and (shown
here for level non-turning flight, with any optimizer whose output keeps
the closure denominator nonzero) returns an ok result rather than any
rejection. -/
theorem C1_amended_no_tas_check (ls : LeastSquares) (atmf : Atm)
    (deq : DynEqs) (air : Aircraft) (h TAS : ℝ) (hTAS : TAS ≤ 0)
    (hdom : ∀ f g bnds, Real.cos ((ls f g bnds).x 0) *
      Real.cos ((ls f g bnds).x 1) ≠ 0) :
    (steady_state_flight_trim ls atmf deq air h TAS 0 0
      none).toOption.isSome = true := by
  rw [trim_none_unfold]
  rw [if_pos (show |(0:ℝ)| < 1e-8 by norm_num)]
  simp only [ok_bind]
  obtain ⟨theta, htheta⟩ := rate_of_climb_cons_level_ok
    ((ls (fun x => func x h TAS 0 0 air deq atmf)
      ![0.05 * Real.sign 0, 0.001 * Real.sign 0, 0.05,
        0.01 * Real.sign 0, 0.01 * Real.sign 0, 0.5]
      (![-1, -0.5, -1, -1, -1, 0], ![1, 0.5, 1, 1, 1, 1])).x 0)
    ((ls (fun x => func x h TAS 0 0 air deq atmf)
      ![0.05 * Real.sign 0, 0.001 * Real.sign 0, 0.05,
        0.01 * Real.sign 0, 0.01 * Real.sign 0, 0.5]
      (![-1, -0.5, -1, -1, -1, 0], ![1, 0.5, 1, 1, 1, 1])).x 1)
    0 (hdom _ _ _)
  rw [htheta]
  simp only [ok_bind]
  rfl

/-- C1 witness for the amended theorem: a concrete call at TAS = -1 with
a stub optimizer returning zero wind angles. -/
theorem C1_amended_witness :
    ((-1:ℝ) ≤ 0) ∧
    (steady_state_flight_trim (constLS (fun _ => 0) (fun _ => 0) 0) atm0
      dyn0 aircraft0 0 (-1) 0 0 none).toOption.isSome = true :=
  ⟨by norm_num,
   C1_amended_no_tas_check (constLS (fun _ => 0) (fun _ => 0) 0) atm0 dyn0
     aircraft0 0 (-1) (by norm_num)
     (fun f g bnds => by
       show Real.cos 0 * Real.cos 0 ≠ 0
       rw [Real.cos_zero]; norm_num)⟩

/-- C4, counterexample to the claim as stated: the dynamics argument is
not a mandatory explicit input.  Supplying an explicit implementation
(dyn_eqs = some dyn0) makes the very same call fail with
UnboundLocalError, while omitting it (dyn_eqs = none) succeeds through
the implicit default imported inside the function, the opposite of
mandatory explicit dependency injection. -/
theorem C4_counterexample :
    steady_state_flight_trim (constLS (fun _ => 0) (fun _ => 0) 0) atm0
        dyn0 aircraft0 0 100 0 0 (some dyn0) =
      .error .unboundLocalError ∧
    (steady_state_flight_trim (constLS (fun _ => 0) (fun _ => 0) 0) atm0
        dyn0 aircraft0 0 100 0 0 none).toOption.isSome = true := by
  refine ⟨rfl, ?_⟩
  rw [trim_constLS_eval (fun _ => 0) (fun _ => 0) 0 0 100 rfl rfl]
  rfl

/-- C4, amended: the dynamics are resolved through an implicit default:
every solve that returns a result at all was called with dyn_eqs = None
and therefore used the default dynamics imported inside the function,
never a caller-supplied implementation (supplying one raises
UnboundLocalError instead). -/
theorem C4_amended_implicit_default (ls : LeastSquares) (atmf : Atm)
    (deq : DynEqs) (air : Aircraft) (h TAS gamma turn_rate : ℝ)
    (de : Option DynEqs) (out : TrimOutput × List Warning)
    (hok : steady_state_flight_trim ls atmf deq air h TAS gamma turn_rate
      de = .ok out) : de = none := by
  cases de with
  | none => rfl
  | some d =>
    have hred : steady_state_flight_trim ls atmf deq air h TAS gamma
        turn_rate (some d) = .error .unboundLocalError := rfl
    rw [hred] at hok
    exact absurd hok (error_ne_ok _ _)

/-- C4 witness for the amended theorem: a concrete successful solve,
necessarily with dyn_eqs = None. -/
theorem C4_amended_witness :
    (steady_state_flight_trim (constLS (fun _ => 0) (fun _ => 0) 0) atm0
      dyn0 aircraft0 1000 100 0 0 none).toOption.isSome = true ∧
    (none : Option DynEqs) = none := by
  have hok := trim_constLS_eval (fun _ => 0) (fun _ => 0) 0 1000 100 rfl rfl
  exact ⟨by rw [hok]; rfl,
    C4_amended_implicit_default _ atm0 dyn0 aircraft0 1000 100 0 0 none _
      hok⟩

/-- C2, counterexample to the claim as stated: a solve whose resolved
throttle is 1 (greater than 0.99) but which converged (cost 0, zero
residual) attaches no diagnostic at all — the insufficient-power
diagnostic is not raised, because in the source it is nested inside the
non-convergence branch and is therefore not independent of it. -/
theorem C2_counterexample :
    (steady_state_flight_trim (constLS ![0, 0, 0, 0, 0, 1] (fun _ => 0) 0)
        atm0 dyn0 aircraft0 0 100 0 0 none).map
        (fun p => (p.1.control 3, p.2)) = .ok (1, []) ∧
    (1:ℝ) > 0.99 := by
  constructor
  · rw [trim_constLS_eval ![0, 0, 0, 0, 0, 1] (fun _ => 0) 0 0 100 rfl rfl]
    have hc : ¬ ((0:ℝ) > 1e-7 ∨ ∃ i : Fin 6, |(fun _ => (0:ℝ)) i| > 1e-3) := by
      norm_num
    rw [if_neg hc]
    rfl
  · norm_num

/-- C2, amended: the insufficient-power diagnostic is nested inside the
convergence diagnostic, not independent of it: for every solve that
returns, the insufficient-power diagnostic is attached exactly when the
convergence diagnostic is attached and in addition the resolved throttle
exceeds 0.99. -/
theorem C2_amended_power_diag_nested (ls : LeastSquares) (atmf : Atm)
    (deq : DynEqs) (air : Aircraft) (h TAS gamma turn_rate : ℝ)
    (res : TrimOutput) (ws : List Warning)
    (hok : steady_state_flight_trim ls atmf deq air h TAS gamma turn_rate
      none = .ok (res, ws)) :
    Warning.notEnoughPower ∈ ws ↔
      Warning.notConverge ∈ ws ∧ res.control 3 > 0.99 := by
  rw [trim_none_unfold] at hok
  generalize ls (fun x => func x h TAS gamma turn_rate air deq atmf)
      ![0.05 * Real.sign gamma, 0.001 * Real.sign turn_rate, 0.05,
        0.01 * Real.sign turn_rate, 0.01 * Real.sign turn_rate, 0.5]
      (![-1, -0.5, -1, -1, -1, 0], ![1, 0.5, 1, 1, 1, 1]) = R at hok
  by_cases htr : |turn_rate| < 1e-8
  · rw [if_pos htr] at hok
    simp only [ok_bind] at hok
    cases hroc : rate_of_climb_cons gamma (R.x 0) (R.x 1) 0 with
    | error e =>
      rw [hroc] at hok
      simp only [error_bind] at hok
      exact absurd hok (error_ne_ok _ _)
    | ok thetav =>
      rw [hroc] at hok
      simp only [ok_bind, pure_eq_ok] at hok
      have h12 := ok_inj hok
      have hres := congrArg Prod.fst h12
      have hws := congrArg Prod.snd h12
      simp only at hres hws
      subst hres
      rw [← hws]
      show Warning.notEnoughPower ∈ _ ↔
        Warning.notConverge ∈ _ ∧ R.x 5 > 0.99
      split_ifs with hcond hthr
      · simp [hthr]
      · simp [hthr]
      · simp
  · rw [if_neg htr] at hok
    cases htc : turn_coord_cons turn_rate (R.x 0) (R.x 1) TAS gamma with
    | error e =>
      rw [htc] at hok
      simp only [error_bind] at hok
      exact absurd hok (error_ne_ok _ _)
    | ok phiv =>
      rw [htc] at hok
      simp only [ok_bind] at hok
      cases hroc : rate_of_climb_cons gamma (R.x 0) (R.x 1) phiv with
      | error e =>
        rw [hroc] at hok
        simp only [error_bind] at hok
        exact absurd hok (error_ne_ok _ _)
      | ok thetav =>
        rw [hroc] at hok
        simp only [ok_bind, pure_eq_ok] at hok
        have h12 := ok_inj hok
        have hres := congrArg Prod.fst h12
        have hws := congrArg Prod.snd h12
        simp only at hres hws
        subst hres
        rw [← hws]
        show Warning.notEnoughPower ∈ _ ↔
          Warning.notConverge ∈ _ ∧ R.x 5 > 0.99
        split_ifs with hcond hthr
        · simp [hthr]
        · simp [hthr]
        · simp

/-- C2 witness for the amended theorem: a non-converged solve with
throttle 1, on which both diagnostics co-occur and the equivalence is
inhabited on the true side. -/
theorem C2_amended_witness :
    Warning.notEnoughPower ∈
        [Warning.notConverge, Warning.notEnoughPower] ↔
      Warning.notConverge ∈
          [Warning.notConverge, Warning.notEnoughPower] ∧
        (1:ℝ) > 0.99 := by
  have hok := trim_constLS_eval ![0, 0, 0, 0, 0, 1] (fun _ => 0) 1 0 200
    rfl rfl
  rw [if_pos (show (1:ℝ) > 1e-7 ∨ ∃ i : Fin 6, |(fun _ => (0:ℝ)) i| > 1e-3
      from Or.inl (by norm_num)),
    if_pos (show (![0, 0, 0, 0, 0, 1] : Fin 6 → ℝ) 5 > 0.99 from by
      show (1:ℝ) > 0.99
      norm_num)] at hok
  exact C2_amended_power_diag_nested _ atm0 dyn0 aircraft0 0 200 0 0 _ _ hok

/-- C7, confirmed: for every returned trim result, phi is 0 when the
turn rate is below the fast-path threshold and otherwise exactly the
value turn_coord_cons returns at the final alpha and beta, theta is
exactly the value rate_of_climb_cons returns at the final alpha, beta
and that phi, and alpha and beta themselves are components 0 and 1 of
the six-component optimizer output — phi and theta are recomputed, never
free parameters of the optimization. -/
theorem C7_phi_theta_from_closure (ls : LeastSquares) (atmf : Atm)
    (deq : DynEqs) (air : Aircraft) (h TAS gamma turn_rate : ℝ)
    (res : TrimOutput) (ws : List Warning)
    (hok : steady_state_flight_trim ls atmf deq air h TAS gamma turn_rate
      none = .ok (res, ws)) :
    (|turn_rate| < 1e-8 → res.phi = 0) ∧
    (¬ |turn_rate| < 1e-8 →
      turn_coord_cons turn_rate res.alpha res.beta TAS gamma =
        .ok res.phi) ∧
    rate_of_climb_cons gamma res.alpha res.beta res.phi = .ok res.theta ∧
    res.alpha = (ls (fun x => func x h TAS gamma turn_rate air deq atmf)
      ![0.05 * Real.sign gamma, 0.001 * Real.sign turn_rate, 0.05,
        0.01 * Real.sign turn_rate, 0.01 * Real.sign turn_rate, 0.5]
      (![-1, -0.5, -1, -1, -1, 0], ![1, 0.5, 1, 1, 1, 1])).x 0 ∧
    res.beta = (ls (fun x => func x h TAS gamma turn_rate air deq atmf)
      ![0.05 * Real.sign gamma, 0.001 * Real.sign turn_rate, 0.05,
        0.01 * Real.sign turn_rate, 0.01 * Real.sign turn_rate, 0.5]
      (![-1, -0.5, -1, -1, -1, 0], ![1, 0.5, 1, 1, 1, 1])).x 1 := by
  rw [trim_none_unfold] at hok
  generalize hR : ls (fun x => func x h TAS gamma turn_rate air deq atmf)
      ![0.05 * Real.sign gamma, 0.001 * Real.sign turn_rate, 0.05,
        0.01 * Real.sign turn_rate, 0.01 * Real.sign turn_rate, 0.5]
      (![-1, -0.5, -1, -1, -1, 0], ![1, 0.5, 1, 1, 1, 1]) = R at hok ⊢
  by_cases htr : |turn_rate| < 1e-8
  · rw [if_pos htr] at hok
    simp only [ok_bind] at hok
    cases hroc : rate_of_climb_cons gamma (R.x 0) (R.x 1) 0 with
    | error e =>
      rw [hroc] at hok
      simp only [error_bind] at hok
      exact absurd hok (error_ne_ok _ _)
    | ok thetav =>
      rw [hroc] at hok
      simp only [ok_bind, pure_eq_ok] at hok
      have hres := congrArg Prod.fst (ok_inj hok)
      simp only at hres
      subst hres
      exact ⟨fun _ => rfl, fun hcon => absurd htr hcon, hroc, rfl, rfl⟩
  · rw [if_neg htr] at hok
    cases htc : turn_coord_cons turn_rate (R.x 0) (R.x 1) TAS gamma with
    | error e =>
      rw [htc] at hok
      simp only [error_bind] at hok
      exact absurd hok (error_ne_ok _ _)
    | ok phiv =>
      rw [htc] at hok
      simp only [ok_bind] at hok
      cases hroc : rate_of_climb_cons gamma (R.x 0) (R.x 1) phiv with
      | error e =>
        rw [hroc] at hok
        simp only [error_bind] at hok
        exact absurd hok (error_ne_ok _ _)
      | ok thetav =>
        rw [hroc] at hok
        simp only [ok_bind, pure_eq_ok] at hok
        have hres := congrArg Prod.fst (ok_inj hok)
        simp only at hres
        subst hres
        exact ⟨fun hcon => absurd hcon htr, fun _ => htc, hroc, rfl, rfl⟩

/-- C7 witness: a concrete returned result on which phi is the fast-path
zero and theta the rate-of-climb value at the final wind angles. -/
theorem C7_phi_theta_witness :
    rate_of_climb_cons 0 0 0 0 = .ok 0 ∧
    (|(0:ℝ)| < 1e-8 → (0:ℝ) = 0) := by
  have hok := trim_constLS_eval (fun _ => 0) (fun _ => 0) 0 0 100 rfl rfl
  have H := C7_phi_theta_from_closure (constLS (fun _ => 0) (fun _ => 0) 0)
    atm0 dyn0 aircraft0 0 100 0 0 _ _ hok
  exact ⟨H.2.2.1, H.1⟩

end Trimmer
